import Mathlib

/-!
# Verification of the neatback posture service core

Shallow embedding of the posture stability pipeline of the `neatback`
repository (python-service): the state debouncer (`state_debouncer.py`),
the smoothing filter (`smoothing_filter.py`), sensitivity-scale threshold
interpolation (`config.py`), the hysteresis classifier and compensation
detector (`pose_detector.py`), and the session warning cadence
(`posture_analyzer.py`).  Real numbers of the source are modelled as `ℚ`.
-/

namespace NeatBack

/-! ## State debouncer (`state_debouncer.py`)

State attributes of class `StateDebouncer`: `current_state` (`'good'` or
`'bad'`, modelled as `current_bad : Bool`), the two consecutive-frame
counters and `last_update`.  Timestamps are rationals (seconds). -/

structure DebouncerState where
  current_bad : Bool
  consecutive_good : Nat
  consecutive_bad : Nat
  last_update : ℚ
deriving Repr, DecidableEq

structure DebouncerConfig where
  bad_to_good_frames : Nat
  good_to_bad_frames : Nat
deriving Repr, DecidableEq

/-- `__init__`: state `'good'`, both counters zero, `last_update` the
construction time. -/
def DebouncerState.init (t : ℚ) : DebouncerState :=
  { current_bad := false, consecutive_good := 0, consecutive_bad := 0, last_update := t }

/-- `update` lines 41-44: reset counters if more than 1 second passed. -/
def gapReset (s : DebouncerState) (current_time : ℚ) : DebouncerState :=
  if current_time - s.last_update > 1 then
    { s with consecutive_good := 0, consecutive_bad := 0 }
  else s

/-- `update` lines 48-54: update consecutive frame counts. -/
def countFrame (s : DebouncerState) (detected_is_bad : Bool) : DebouncerState :=
  if detected_is_bad then
    { s with consecutive_bad := s.consecutive_bad + 1, consecutive_good := 0 }
  else
    { s with consecutive_good := s.consecutive_good + 1, consecutive_bad := 0 }

/-- `update` lines 56-64: state transition logic. -/
def transition (cfg : DebouncerConfig) (s : DebouncerState) : DebouncerState :=
  if s.current_bad = false then
    if s.consecutive_bad ≥ cfg.good_to_bad_frames then { s with current_bad := true } else s
  else
    if s.consecutive_good ≥ cfg.bad_to_good_frames then { s with current_bad := false } else s

/-- `StateDebouncer.update`: gap check against the previous `last_update`,
then `last_update = current_time`, then counting, then the transition.
The boolean the method returns is `(update ...).current_bad`. -/
def DebouncerState.update (cfg : DebouncerConfig) (s : DebouncerState)
    (detected_is_bad : Bool) (current_time : ℚ) : DebouncerState :=
  transition cfg (countFrame { gapReset s current_time with last_update := current_time } detected_is_bad)

/-- `force_state`: set the state directly and zero both counters. -/
def DebouncerState.force_state (s : DebouncerState) (is_bad : Bool) : DebouncerState :=
  { s with current_bad := is_bad, consecutive_good := 0, consecutive_bad := 0 }

/-- Run the debouncer over a list of `(detected_is_bad, current_time)` updates. -/
def runDebouncer (cfg : DebouncerConfig) (s : DebouncerState)
    (obs : List (Bool × ℚ)) : DebouncerState :=
  obs.foldl (fun st p => st.update cfg p.1 p.2) s

/-- Timestamps `ts` follow `t0` with every gap at most one second. -/
def NoGaps : ℚ → List ℚ → Prop
  | _, [] => True
  | t0, t :: ts => t - t0 ≤ 1 ∧ NoGaps t ts

instance : ∀ t0 ts, Decidable (NoGaps t0 ts)
  | _, [] => .isTrue trivial
  | t0, t :: ts =>
    have : Decidable (NoGaps t ts) := instDecidableNoGaps t ts
    instDecidableAnd

/-- With no gap, an update is the untimed step with the timestamp refreshed. -/
theorem update_of_no_gap (cfg : DebouncerConfig) (s : DebouncerState) (b : Bool) (t : ℚ)
    (h : t - s.last_update ≤ 1) :
    s.update cfg b t = transition cfg (countFrame { s with last_update := t } b) := by
  unfold DebouncerState.update gapReset
  rw [if_neg (by exact not_lt_of_le h)]

/-- Invariant of a run of consecutive bad observations: starting from a state
whose badness already reflects `k` accumulated consecutive bad frames
(`consecutive_good = 0`), the counters keep counting and the state is bad
exactly when the count has reached `good_to_bad_frames`. -/
theorem badRun_invariant (cfg : DebouncerConfig)
    (hb : 1 ≤ cfg.bad_to_good_frames) :
    ∀ (ts : List ℚ) (k : Nat) (t0 : ℚ), NoGaps t0 ts →
      ∃ t : ℚ, runDebouncer cfg
          { current_bad := decide (cfg.good_to_bad_frames ≤ k),
            consecutive_good := 0, consecutive_bad := k, last_update := t0 }
          (ts.map (fun t => (true, t)))
        = { current_bad := decide (cfg.good_to_bad_frames ≤ k + ts.length),
            consecutive_good := 0, consecutive_bad := k + ts.length, last_update := t } := by
  intro ts
  induction ts with
  | nil => intro k t0 _; exact ⟨t0, rfl⟩
  | cons t ts ih =>
    intro k t0 hgap
    obtain ⟨h1, h2⟩ := hgap
    have hstep :
        DebouncerState.update cfg
          { current_bad := decide (cfg.good_to_bad_frames ≤ k),
            consecutive_good := 0, consecutive_bad := k, last_update := t0 } true t
        = { current_bad := decide (cfg.good_to_bad_frames ≤ k + 1),
            consecutive_good := 0, consecutive_bad := k + 1, last_update := t } := by
      rw [update_of_no_gap cfg _ true t (by simpa using h1)]
      by_cases hk : cfg.good_to_bad_frames ≤ k
      · have hk1 : cfg.good_to_bad_frames ≤ k + 1 := le_trans hk (Nat.le_succ k)
        have hb0 : ¬ (0 ≥ cfg.bad_to_good_frames) := by omega
        simp [countFrame, transition, hk, hk1, hb0]
      · by_cases hk1 : cfg.good_to_bad_frames ≤ k + 1 <;>
          simp [countFrame, transition, hk, hk1]
    obtain ⟨tf, hrest⟩ := ih (k + 1) t h2
    refine ⟨tf, ?_⟩
    unfold runDebouncer at hrest ⊢
    simp only [List.map_cons, List.foldl_cons]
    rw [hstep]
    simpa [Nat.add_assoc, Nat.add_comm 1 ts.length] using hrest

/-- Invariant of a run of consecutive good observations: starting from a state
whose goodness already reflects `m` accumulated consecutive good frames
(`consecutive_bad = 0`), the counters keep counting and the state is good
exactly when the count has reached `bad_to_good_frames`. -/
theorem goodRun_invariant (cfg : DebouncerConfig)
    (hg : 1 ≤ cfg.good_to_bad_frames) :
    ∀ (ts : List ℚ) (m : Nat) (t0 : ℚ), NoGaps t0 ts →
      ∃ t : ℚ, runDebouncer cfg
          { current_bad := !decide (cfg.bad_to_good_frames ≤ m),
            consecutive_good := m, consecutive_bad := 0, last_update := t0 }
          (ts.map (fun t => (false, t)))
        = { current_bad := !decide (cfg.bad_to_good_frames ≤ m + ts.length),
            consecutive_good := m + ts.length, consecutive_bad := 0, last_update := t } := by
  intro ts
  induction ts with
  | nil => intro m t0 _; exact ⟨t0, rfl⟩
  | cons t ts ih =>
    intro m t0 hgap
    obtain ⟨h1, h2⟩ := hgap
    have hstep :
        DebouncerState.update cfg
          { current_bad := !decide (cfg.bad_to_good_frames ≤ m),
            consecutive_good := m, consecutive_bad := 0, last_update := t0 } false t
        = { current_bad := !decide (cfg.bad_to_good_frames ≤ m + 1),
            consecutive_good := m + 1, consecutive_bad := 0, last_update := t } := by
      rw [update_of_no_gap cfg _ false t (by simpa using h1)]
      by_cases hm : cfg.bad_to_good_frames ≤ m
      · have hm1 : cfg.bad_to_good_frames ≤ m + 1 := le_trans hm (Nat.le_succ m)
        have hg0 : ¬ (0 ≥ cfg.good_to_bad_frames) := by omega
        simp [countFrame, transition, hm, hm1, hg0]
      · by_cases hm1 : cfg.bad_to_good_frames ≤ m + 1 <;>
          simp [countFrame, transition, hm, hm1]
    obtain ⟨tf, hrest⟩ := ih (m + 1) t h2
    refine ⟨tf, ?_⟩
    unfold runDebouncer at hrest ⊢
    simp only [List.map_cons, List.foldl_cons]
    rw [hstep]
    simpa [Nat.add_assoc, Nat.add_comm 1 ts.length] using hrest

/-- C4: fed updates with no >1s gaps, the debouncer starting Good turns Bad
exactly on the `good_to_bad_frames`-th consecutive bad observation and not
before; starting Bad it returns Good exactly on the `bad_to_good_frames`-th
consecutive good observation and not before; and a single opposite
observation zeroes the opposite run counter. -/
theorem debouncer_exact_transitions (cfg : DebouncerConfig)
    (hg : 1 ≤ cfg.good_to_bad_frames) (hb : 1 ≤ cfg.bad_to_good_frames)
    (t0 : ℚ) (ts : List ℚ) (hgap : NoGaps t0 ts) :
    ((runDebouncer cfg (DebouncerState.init t0) (ts.map (fun t => (true, t)))).current_bad
        = decide (cfg.good_to_bad_frames ≤ ts.length))
    ∧ (∀ cb : Nat,
        (runDebouncer cfg
            { current_bad := true, consecutive_good := 0, consecutive_bad := cb,
              last_update := t0 }
            (ts.map (fun t => (false, t)))).current_bad
          = !decide (cfg.bad_to_good_frames ≤ ts.length))
    ∧ (∀ (s : DebouncerState) (t : ℚ),
        (s.update cfg false t).consecutive_bad = 0 ∧ (s.update cfg true t).consecutive_good = 0) := by
  refine ⟨?_, ?_, ?_⟩
  · have h0 : DebouncerState.init t0
        = { current_bad := decide (cfg.good_to_bad_frames ≤ 0),
            consecutive_good := 0, consecutive_bad := 0, last_update := t0 } := by
      simp [DebouncerState.init, Nat.not_le.mpr (Nat.lt_of_lt_of_le Nat.zero_lt_one hg)]
    obtain ⟨t, hrun⟩ := badRun_invariant cfg hb ts 0 t0 hgap
    rw [h0, hrun]
    simp
  · intro cb
    cases ts with
    | nil =>
      simp [runDebouncer, Nat.not_le.mpr (Nat.lt_of_lt_of_le Nat.zero_lt_one hb)]
    | cons t rest =>
      obtain ⟨h1, h2⟩ := hgap
      have hstep :
          DebouncerState.update cfg
            { current_bad := true, consecutive_good := 0, consecutive_bad := cb,
              last_update := t0 } false t
          = { current_bad := !decide (cfg.bad_to_good_frames ≤ 1),
              consecutive_good := 1, consecutive_bad := 0, last_update := t } := by
        rw [update_of_no_gap cfg _ false t (by simpa using h1)]
        by_cases hm1 : cfg.bad_to_good_frames ≤ 1 <;>
          simp [countFrame, transition, hm1]
      obtain ⟨tf, hrest⟩ := goodRun_invariant cfg hg rest 1 t h2
      unfold runDebouncer at hrest ⊢
      simp only [List.map_cons, List.foldl_cons, List.length_cons]
      rw [hstep, hrest]
      simp [Nat.add_comm 1 rest.length]
  · intro s t
    have htrans : ∀ s' : DebouncerState,
        (transition cfg s').consecutive_good = s'.consecutive_good
        ∧ (transition cfg s').consecutive_bad = s'.consecutive_bad := by
      intro s'
      unfold transition
      split_ifs <;> exact ⟨rfl, rfl⟩
    constructor
    · unfold DebouncerState.update
      rw [(htrans _).2]
      simp [countFrame]
    · unfold DebouncerState.update
      rw [(htrans _).1]
      simp [countFrame]

/-- Witness for C4 at `good_to_bad_frames = 2`, `bad_to_good_frames = 3`:
two bad observations flip Good to Bad, two good observations do not yet flip
Bad back to Good. -/
theorem debouncer_exact_transitions_witness :
    (runDebouncer ⟨3, 2⟩ (DebouncerState.init 0) [(true, (0 : ℚ)), (true, 0)]).current_bad = true
    ∧ (runDebouncer ⟨3, 2⟩
        { current_bad := true, consecutive_good := 0, consecutive_bad := 5, last_update := 0 }
        [(false, (0 : ℚ)), (false, 0)]).current_bad = true := by
  have h := debouncer_exact_transitions ⟨3, 2⟩ (by decide) (by decide) 0 [0, 0]
    ⟨by norm_num, by norm_num, trivial⟩
  exact ⟨by simpa using h.1, by simpa using h.2.1 5⟩

/-- C5: a gap of more than one second between updates only zeroes the two
consecutive-frame counters, leaving the stable state untouched, and the
following update behaves as the first observation of a fresh run. -/
theorem gap_only_resets_counters (cfg : DebouncerConfig) (s : DebouncerState)
    (b : Bool) (now : ℚ) (h : now - s.last_update > 1) :
    (gapReset s now).current_bad = s.current_bad
    ∧ (gapReset s now).consecutive_good = 0
    ∧ (gapReset s now).consecutive_bad = 0
    ∧ s.update cfg b now
        = DebouncerState.update cfg
            { s with consecutive_good := 0, consecutive_bad := 0 } b now := by
  unfold DebouncerState.update gapReset
  rw [if_pos h]
  refine ⟨rfl, rfl, rfl, ?_⟩
  split_ifs <;> rfl

/-- Witness for C5: a Bad state with a partial good run, updated 3 seconds
later, keeps its Bad state and behaves as a zeroed-counter state. -/
theorem gap_only_resets_counters_witness :
    (gapReset ⟨true, 2, 0, 0⟩ 3).current_bad = true
    ∧ (gapReset ⟨true, 2, 0, 0⟩ 3).consecutive_good = 0
    ∧ DebouncerState.update ⟨3, 2⟩ ⟨true, 2, 0, 0⟩ false 3
        = DebouncerState.update ⟨3, 2⟩ ⟨true, 0, 0, 0⟩ false 3 := by
  have h := gap_only_resets_counters ⟨3, 2⟩ ⟨true, 2, 0, 0⟩ false 3 (by norm_num)
  exact ⟨h.1, h.2.1, h.2.2.2⟩

/-! ## Smoothing filter (`smoothing_filter.py`)

Buffers are `deque(maxlen=window_size)`: appending to a full deque drops the
oldest element.  `np.median` sorts the samples and takes the middle element
(odd length) or the mean of the two middle elements (even length). -/

/-- `np.median` on a non-empty list, `none` on the empty list (the guard of
the inner `smooth` helper of `get_smoothed_values`). -/
def npMedian (l : List ℚ) : Option ℚ :=
  if l.length = 0 then none
  else
    let s := l.insertionSort (· ≤ ·)
    let n := l.length
    if n % 2 = 1 then some (s.getD (n / 2) 0)
    else some ((s.getD (n / 2 - 1) 0 + s.getD (n / 2) 0) / 2)

/-- Append to a `deque(maxlen=w)`: the oldest entries are evicted so that at
most `w` remain. -/
def pushBounded (w : Nat) (buf : List ℚ) (x : ℚ) : List ℚ :=
  let b := buf ++ [x]
  if w < b.length then b.drop (b.length - w) else b

structure SmoothingFilter where
  window_size : Nat
  pitch_buffer : List ℚ
  roll_buffer : List ℚ
  shoulder_buffer : List ℚ
  distance_buffer : List ℚ
deriving Repr, DecidableEq

/-- `SmoothingFilter.__init__`. -/
def SmoothingFilter.mk0 (w : Nat) : SmoothingFilter := ⟨w, [], [], [], []⟩

/-- `add_measurement`: append each non-null value to its own buffer. -/
def SmoothingFilter.add_measurement (f : SmoothingFilter)
    (pitch roll shoulder_tilt distance : Option ℚ) : SmoothingFilter :=
  { f with
    pitch_buffer := match pitch with
      | some v => pushBounded f.window_size f.pitch_buffer v
      | none => f.pitch_buffer
    roll_buffer := match roll with
      | some v => pushBounded f.window_size f.roll_buffer v
      | none => f.roll_buffer
    shoulder_buffer := match shoulder_tilt with
      | some v => pushBounded f.window_size f.shoulder_buffer v
      | none => f.shoulder_buffer
    distance_buffer := match distance with
      | some v => pushBounded f.window_size f.distance_buffer v
      | none => f.distance_buffer }

structure SmoothedValues where
  pitch : Option ℚ
  roll : Option ℚ
  shoulder_tilt : Option ℚ
  distance : Option ℚ
deriving Repr, DecidableEq

/-- `get_smoothed_values`: the median of each buffer, `None` when empty. -/
def SmoothingFilter.get_smoothed_values (f : SmoothingFilter) : SmoothedValues :=
  { pitch := npMedian f.pitch_buffer,
    roll := npMedian f.roll_buffer,
    shoulder_tilt := npMedian f.shoulder_buffer,
    distance := npMedian f.distance_buffer }

/-- `reset`: clear all buffers. -/
def SmoothingFilter.reset (f : SmoothingFilter) : SmoothingFilter :=
  { f with pitch_buffer := [], roll_buffer := [], shoulder_buffer := [],
           distance_buffer := [] }

theorem npMedian_perm {l₁ l₂ : List ℚ} (h : l₁.Perm l₂) : npMedian l₁ = npMedian l₂ := by
  have hsort : l₁.insertionSort (· ≤ ·) = l₂.insertionSort (· ≤ ·) :=
    List.eq_of_perm_of_sorted
      (((List.perm_insertionSort _ l₁).trans h).trans (List.perm_insertionSort _ l₂).symm)
      (List.sorted_insertionSort _ l₁) (List.sorted_insertionSort _ l₂)
  simp only [npMedian, hsort, h.length_eq]

/-- C8: the smoothed value of a metric is the median of its buffer when the
buffer is non-empty and null when it is empty; the median is invariant under
permutation of the buffered samples; with window 3 the pitch samples
`[-15, -12, -14]` smooth to `-14`. -/
theorem smoothing_median_properties :
    (npMedian [] = none)
    ∧ (∀ l : List ℚ, l ≠ [] → (npMedian l).isSome = true)
    ∧ (∀ f : SmoothingFilter, f.get_smoothed_values.pitch = npMedian f.pitch_buffer
        ∧ f.get_smoothed_values.roll = npMedian f.roll_buffer
        ∧ f.get_smoothed_values.shoulder_tilt = npMedian f.shoulder_buffer
        ∧ f.get_smoothed_values.distance = npMedian f.distance_buffer)
    ∧ (∀ l₁ l₂ : List ℚ, l₁.Perm l₂ → npMedian l₁ = npMedian l₂)
    ∧ ((((SmoothingFilter.mk0 3).add_measurement (some (-15)) none none none).add_measurement
          (some (-12)) none none none).add_measurement (some (-14)) none none
          none).get_smoothed_values.pitch = some (-14) := by
  refine ⟨rfl, ?_, ?_, ?_, ?_⟩
  · intro l hl
    have hlen : ¬ l.length = 0 := by simpa [List.length_eq_zero] using hl
    unfold npMedian
    rw [if_neg hlen]
    by_cases hpar : l.length % 2 = 1 <;> simp [hpar]
  · intro f
    exact ⟨rfl, rfl, rfl, rfl⟩
  · intro l₁ l₂ h
    exact npMedian_perm h
  · decide

/-- Witness for C8 at concrete inputs: `[-15, -12]` is non-empty hence has a
median, and the permuted samples `[-12, -15, -14]` give the same median as
`[-15, -12, -14]`. -/
theorem smoothing_median_properties_witness :
    ((npMedian [-15, -12]).isSome = true)
    ∧ npMedian [(-15 : ℚ), -12, -14] = npMedian [-12, -15, -14] := by
  refine ⟨smoothing_median_properties.2.1 [-15, -12] (by decide), ?_⟩
  exact smoothing_median_properties.2.2.2.1 [-15, -12, -14] [-12, -15, -14] (by decide)

/-! ## Sensitivity-scale threshold interpolation (`config.py`)

`_interpolate_threshold` clamps the scale to `[1, 5]`; Python `int(scale)`
truncates, which on the clamped positive range coincides with the floor. -/

/-- `scale = max(1.0, min(5.0, scale))`. -/
def clampScale (scale : ℚ) : ℚ := max 1 (min 5 scale)

/-- `_interpolate_threshold(scale, mapping)`. -/
def interpolateThreshold (mapping : ℤ → ℚ × ℚ) (scale : ℚ) : ℚ × ℚ :=
  let s := clampScale scale
  if s = (⌊s⌋ : ℚ) then mapping ⌊s⌋
  else
    let lower : ℤ := ⌊s⌋
    let upper : ℤ := lower + 1
    let fraction : ℚ := s - (lower : ℚ)
    let lo := mapping lower
    let up := mapping upper
    (lo.1 + (up.1 - lo.1) * fraction, lo.2 + (up.2 - lo.2) * fraction)

/-- The anchor table of `scale_to_pitch_threshold` (`(enter_bad, exit_bad)`
per integer scale 1..5; keys outside the table are never accessed). -/
def pitchMapping : ℤ → ℚ × ℚ := fun n =>
  if n = 1 then (-20, -16)
  else if n = 2 then (-15, -12)
  else if n = 3 then (-10, -8)
  else if n = 4 then (-7, -5)
  else if n = 5 then (-5, -3)
  else (0, 0)

/-- `scale_to_pitch_threshold`. -/
def scale_to_pitch_threshold (scale : ℚ) : ℚ × ℚ :=
  interpolateThreshold pitchMapping scale

theorem clampScale_mem (s : ℚ) : 1 ≤ clampScale s ∧ clampScale s ≤ 5 :=
  ⟨le_max_left 1 _, max_le (by norm_num) (min_le_left 5 s)⟩

theorem clampScale_of_mem {s : ℚ} (h1 : 1 ≤ s) (h5 : s ≤ 5) : clampScale s = s := by
  unfold clampScale
  rw [min_eq_right h5, max_eq_right h1]

/-- C7: the scale is clamped to `[1, 5]` (and interpolation only depends on
the clamped scale); an integral scale returns its anchor pair exactly; a
fractional scale returns, in both components, the linear interpolation of
the two bracketing anchors weighted by the fractional part; scale `3`
returns the anchor-3 pair and scale `3.5` the pair halfway between the
anchor-3 and anchor-4 pairs. -/
theorem scale_threshold_interpolation :
    (∀ s : ℚ, (1 ≤ clampScale s ∧ clampScale s ≤ 5)
        ∧ scale_to_pitch_threshold s = scale_to_pitch_threshold (clampScale s))
    ∧ (∀ n : ℤ, 1 ≤ n → n ≤ 5 → scale_to_pitch_threshold (n : ℚ) = pitchMapping n)
    ∧ (∀ s : ℚ, 1 ≤ s → s ≤ 5 → s ≠ (⌊s⌋ : ℚ) →
        scale_to_pitch_threshold s =
          ((pitchMapping ⌊s⌋).1 + ((pitchMapping (⌊s⌋ + 1)).1 - (pitchMapping ⌊s⌋).1) * (s - (⌊s⌋ : ℚ)),
           (pitchMapping ⌊s⌋).2 + ((pitchMapping (⌊s⌋ + 1)).2 - (pitchMapping ⌊s⌋).2) * (s - (⌊s⌋ : ℚ))))
    ∧ scale_to_pitch_threshold 3 = (-10, -8)
    ∧ scale_to_pitch_threshold (7 / 2)
        = (((-10) + (-7)) / 2, ((-8) + (-5)) / 2) := by
  refine ⟨?_, ?_, ?_, ?_, ?_⟩
  · intro s
    refine ⟨clampScale_mem s, ?_⟩
    unfold scale_to_pitch_threshold interpolateThreshold
    rw [clampScale_of_mem (clampScale_mem s).1 (clampScale_mem s).2]
  · intro n h1 h5
    unfold scale_to_pitch_threshold interpolateThreshold
    rw [clampScale_of_mem (by exact_mod_cast h1) (by exact_mod_cast h5)]
    rw [if_pos (by rw [Int.floor_intCast])]
    rw [Int.floor_intCast]
  · intro s h1 h5 hfrac
    unfold scale_to_pitch_threshold interpolateThreshold
    rw [clampScale_of_mem h1 h5, if_neg hfrac]
  · norm_num [scale_to_pitch_threshold, interpolateThreshold, clampScale, pitchMapping]
  · have h1 : (1 : ℚ) ≤ 7 / 2 := by norm_num
    have h5 : (7 : ℚ) / 2 ≤ 5 := by norm_num
    have hfl : (⌊(7 : ℚ) / 2⌋ : ℤ) = 3 := by
      rw [Int.floor_eq_iff]; norm_num
    unfold scale_to_pitch_threshold interpolateThreshold
    rw [clampScale_of_mem h1 h5]
    rw [if_neg (by rw [hfl]; norm_num)]
    rw [hfl]
    norm_num [pitchMapping]

/-- Witness for C7: integral scale 2 returns the anchor-2 pair, and the
fractional-scale formula applied at `5/2` matches the interpolation. -/
theorem scale_threshold_interpolation_witness :
    scale_to_pitch_threshold ((2 : ℤ) : ℚ) = pitchMapping 2
    ∧ scale_to_pitch_threshold (5 / 2)
        = ((pitchMapping ⌊(5 : ℚ) / 2⌋).1
             + ((pitchMapping (⌊(5 : ℚ) / 2⌋ + 1)).1 - (pitchMapping ⌊(5 : ℚ) / 2⌋).1) * (5 / 2 - (⌊(5 : ℚ) / 2⌋ : ℚ)),
           (pitchMapping ⌊(5 : ℚ) / 2⌋).2
             + ((pitchMapping (⌊(5 : ℚ) / 2⌋ + 1)).2 - (pitchMapping ⌊(5 : ℚ) / 2⌋).2) * (5 / 2 - (⌊(5 : ℚ) / 2⌋ : ℚ))) := by
  constructor
  · exact scale_threshold_interpolation.2.1 2 (by norm_num) (by norm_num)
  · refine scale_threshold_interpolation.2.2.1 (5 / 2) (by norm_num) (by norm_num) ?_
    have hfl : (⌊(5 : ℚ) / 2⌋ : ℤ) = 2 := by
      rw [Int.floor_eq_iff]; norm_num
    rw [hfl]
    norm_num

/-! ## Session warning cadence (`posture_analyzer.py`)

`_should_send_warning(duration)`: the `warning_sent_at` set collects the
durations already warned at during the current bad-posture session.  The
result is a decision plus the updated set (modelled as a list with
membership). -/

/-- `_should_send_warning`: first warning at `initial_warning_seconds`, then
at every `repeat_warning_interval` past it, each duration at most once. -/
def shouldSendWarning (initial_warning_seconds repeat_warning_interval : ℤ)
    (warning_sent_at : List ℤ) (duration : ℤ) : Bool × List ℤ :=
  if duration = initial_warning_seconds ∧ duration ∉ warning_sent_at then
    (true, duration :: warning_sent_at)
  else if initial_warning_seconds < duration
      ∧ (duration - initial_warning_seconds) % repeat_warning_interval = 0
      ∧ duration ∉ warning_sent_at then
    (true, duration :: warning_sent_at)
  else
    (false, warning_sent_at)

/-- C9: the warning decision is true exactly at a not-yet-warned duration
that equals `initial_warning_seconds` or whose excess over it is a positive
multiple of `repeat_warning_interval`; a duration already warned at yields
false; a warning records its duration, so re-querying the same duration
always yields false. -/
theorem should_warn_exactly (initial_warning_seconds repeat_warning_interval : ℤ)
    (sent : List ℤ) (d : ℤ) (hrep : 0 < repeat_warning_interval) :
    ((shouldSendWarning initial_warning_seconds repeat_warning_interval sent d).1 = true ↔
      (d ∉ sent ∧ (d = initial_warning_seconds
        ∨ (initial_warning_seconds < d
            ∧ ∃ k : ℤ, 0 < k ∧ d - initial_warning_seconds = repeat_warning_interval * k))))
    ∧ (d ∈ sent → (shouldSendWarning initial_warning_seconds repeat_warning_interval sent d).1 = false)
    ∧ ((shouldSendWarning initial_warning_seconds repeat_warning_interval sent d).1 = true →
        d ∈ (shouldSendWarning initial_warning_seconds repeat_warning_interval sent d).2)
    ∧ (shouldSendWarning initial_warning_seconds repeat_warning_interval
        (shouldSendWarning initial_warning_seconds repeat_warning_interval sent d).2 d).1 = false := by
  have hmult : initial_warning_seconds < d →
      ((d - initial_warning_seconds) % repeat_warning_interval = 0 ↔
        ∃ k : ℤ, 0 < k ∧ d - initial_warning_seconds = repeat_warning_interval * k) := by
    intro hlt
    constructor
    · intro hmod
      obtain ⟨k, hk⟩ := Int.dvd_of_emod_eq_zero hmod
      refine ⟨k, ?_, hk⟩
      by_contra hk0
      push_neg at hk0
      have : repeat_warning_interval * k ≤ 0 :=
        mul_nonpos_of_nonneg_of_nonpos (le_of_lt hrep) hk0
      omega
    · rintro ⟨k, -, hk⟩
      rw [hk]
      exact Int.mul_emod_right _ _
  refine ⟨?_, ?_, ?_, ?_⟩
  · unfold shouldSendWarning
    split_ifs with h1 h2
    · simp only [true_iff]
      exact ⟨h1.2, Or.inl h1.1⟩
    · simp only [true_iff]
      exact ⟨h2.2.2, Or.inr ⟨h2.1, (hmult h2.1).mp h2.2.1⟩⟩
    · simp only [Bool.false_eq_true, false_iff]
      rintro ⟨hmem, heq | ⟨hlt, hk⟩⟩
      · exact h1 ⟨heq, hmem⟩
      · exact h2 ⟨hlt, (hmult hlt).mpr hk, hmem⟩
  · intro hmem
    unfold shouldSendWarning
    split_ifs with h1 h2
    · exact absurd hmem h1.2
    · exact absurd hmem h2.2.2
    · rfl
  · unfold shouldSendWarning
    split_ifs with h1 h2
    · intro _; exact List.mem_cons_self d sent
    · intro _; exact List.mem_cons_self d sent
    · intro h; exact absurd h (by simp)
  · unfold shouldSendWarning
    split_ifs with h1 h2 h3 h4 h5 h6 <;> first
      | rfl
      | (exact absurd (List.mem_cons_self d sent) (by tauto))

/-- Witness for C9 with `initial=10`, `repeat=20`: duration 30 warns on an
empty warned set (excess 20 is one interval), and warns only once. -/
theorem should_warn_exactly_witness :
    ((shouldSendWarning 10 20 [] 30).1 = true ↔
      ((30 : ℤ) ∉ ([] : List ℤ) ∧ ((30 : ℤ) = 10
        ∨ ((10 : ℤ) < 30 ∧ ∃ k : ℤ, 0 < k ∧ (30 : ℤ) - 10 = 20 * k))))
    ∧ (shouldSendWarning 10 20 (shouldSendWarning 10 20 [] 30).2 30).1 = false := by
  have h := should_warn_exactly 10 20 [] 30 (by norm_num)
  exact ⟨h.1, h.2.2.2⟩

/-! ## Pose detector (`pose_detector.py`)

Hysteresis thresholds, the compensation detector, the classification core
`_is_posture_bad`, the camera intrinsic matrix of `calculate_head_angles`,
the truthiness-guarded rounding of `check_posture`, and the calibration
path `save_good_posture` (with the websocket handler around it). -/

structure ThresholdPair where
  enter_bad : ℚ
  exit_bad : ℚ
deriving Repr, DecidableEq

structure Thresholds where
  pitch : ThresholdPair
  distance : ThresholdPair
  head_roll : ThresholdPair
  shoulder_tilt : ThresholdPair
deriving Repr, DecidableEq

/-- `THRESHOLDS` of `config.py` (default sensitivity 3). -/
def defaultThresholds : Thresholds :=
  { pitch := ⟨-10, -8⟩, distance := ⟨10, 8⟩, head_roll := ⟨15, 12⟩, shoulder_tilt := ⟨5, 3⟩ }

structure CompensationConfig where
  compensation_detection_enabled : Bool
  min_tilt_for_compensation : ℚ
  compensation_ratio_threshold : ℚ
deriving Repr, DecidableEq

/-- Compensation settings of `PostureDetector.__init__`. -/
def defaultCompensationConfig : CompensationConfig := ⟨true, 2, 7 / 10⟩

/-- `_detect_compensation`: `(is_compensating, description)`. -/
def detectCompensation (cfg : CompensationConfig)
    (adjusted_roll adjusted_shoulder_tilt : Option ℚ) : Bool × Option String :=
  if cfg.compensation_detection_enabled = false then (false, none)
  else
    match adjusted_roll, adjusted_shoulder_tilt with
    | some r, some t =>
      let has_head_tilt := |r| > cfg.min_tilt_for_compensation
      let has_shoulder_tilt := |t| > cfg.min_tilt_for_compensation
      if ¬ (has_head_tilt ∨ has_shoulder_tilt) then (false, none)
      else if r * t < 0 then
        let smaller := min |r| |t|
        let larger := max |r| |t|
        let ratio := if larger > 0 then smaller / larger else 0
        if ratio > cfg.compensation_ratio_threshold then
          if t > 0 then (true, some "Body leaning right, head compensating left")
          else (true, some "Body leaning left, head compensating right")
        else (false, none)
      else (false, none)
    | _, _ => (false, none)

/-- `_check_threshold_with_hysteresis`: the bound is chosen by the
detector's single `is_currently_bad` flag, passed here explicitly. -/
def checkThresholdWithHysteresis (is_currently_bad : Bool) (value : ℚ)
    (threshold_config : ThresholdPair) (is_lower_bad : Bool) : Bool :=
  if is_currently_bad then
    if is_lower_bad then value < threshold_config.exit_bad
    else |value| > threshold_config.exit_bad
  else
    if is_lower_bad then value < threshold_config.enter_bad
    else |value| > threshold_config.enter_bad

/-- The mutable attributes of `PostureDetector` that `_is_posture_bad`
reads and writes, together with its configuration attributes. -/
structure DetectorHyst where
  is_currently_bad : Bool
  last_compensation_desc : Option String
  thresholds : Thresholds
  comp_cfg : CompensationConfig
  yaw_threshold : ℚ
deriving Repr, DecidableEq

/-- Detector classification state as constructed in `__init__`. -/
def DetectorHyst.init : DetectorHyst :=
  { is_currently_bad := false, last_compensation_desc := none,
    thresholds := defaultThresholds, comp_cfg := defaultCompensationConfig,
    yaw_threshold := 30 }

/-- Line 607: `yaw is None or abs(yaw) < self.yaw_threshold`. -/
def headIsFacingForward (yaw_threshold : ℚ) (yaw : Option ℚ) : Bool :=
  match yaw with
  | none => true
  | some y => |y| < yaw_threshold

/-- `_is_posture_bad`: accumulates the issue tags, runs the compensation
detector for informational purposes when the head faces forward, and
commits `is_bad` to the `is_currently_bad` flag.  Returns
`(is_bad, reasons, updated state)`. -/
def isPostureBad (st : DetectorHyst)
    (adjusted_pitch adjusted_roll adjusted_shoulder_tilt : Option ℚ)
    (current_distance good_distance yaw : Option ℚ) :
    Bool × List String × DetectorHyst :=
  let reasons : List String := []
  let reasons := match adjusted_pitch with
    | some p =>
      if checkThresholdWithHysteresis st.is_currently_bad p st.thresholds.pitch true
      then reasons ++ ["head_pitch"] else reasons
    | none => reasons
  let reasons := match good_distance, current_distance with
    | some g, some c =>
      if checkThresholdWithHysteresis st.is_currently_bad (g - c) st.thresholds.distance false
      then reasons ++ ["distance"] else reasons
    | _, _ => reasons
  let head_is_facing_forward := headIsFacingForward st.yaw_threshold yaw
  let reasons := if head_is_facing_forward then
      let reasons := match adjusted_roll with
        | some r =>
          if checkThresholdWithHysteresis st.is_currently_bad r st.thresholds.head_roll false
          then reasons ++ ["head_roll"] else reasons
        | none => reasons
      match adjusted_shoulder_tilt with
        | some t =>
          if checkThresholdWithHysteresis st.is_currently_bad t st.thresholds.shoulder_tilt false
          then reasons ++ ["shoulder_tilt"] else reasons
        | none => reasons
    else reasons
  let new_desc := if head_is_facing_forward then
      (detectCompensation st.comp_cfg adjusted_roll adjusted_shoulder_tilt).2
    else st.last_compensation_desc
  let is_bad := reasons.length > 0
  (is_bad, reasons, { st with is_currently_bad := is_bad, last_compensation_desc := new_desc })

/-- The issue list of `_is_posture_bad` on fully determined metrics is the
concatenation of the four independent hysteresis verdicts (roll and tilt
gated by the yaw test); the compensation detector contributes nothing. -/
theorem isPostureBad_issues (st : DetectorHyst) (p r t c g y : ℚ) :
    (isPostureBad st (some p) (some r) (some t) (some c) (some g) (some y)).2.1
      = (if checkThresholdWithHysteresis st.is_currently_bad p st.thresholds.pitch true
          then ["head_pitch"] else [])
        ++ (if checkThresholdWithHysteresis st.is_currently_bad (g - c) st.thresholds.distance false
            then ["distance"] else [])
        ++ (if headIsFacingForward st.yaw_threshold (some y) then
              (if checkThresholdWithHysteresis st.is_currently_bad r st.thresholds.head_roll false
               then ["head_roll"] else [])
              ++ (if checkThresholdWithHysteresis st.is_currently_bad t st.thresholds.shoulder_tilt false
                  then ["shoulder_tilt"] else [])
            else []) := by
  simp only [isPostureBad]
  split_ifs <;> simp

/-- The state committed by `_is_posture_bad` and the recorded compensation
description. -/
theorem isPostureBad_state (st : DetectorHyst)
    (ap ar ast cd gd yaw : Option ℚ) :
    ((isPostureBad st ap ar ast cd gd yaw).2.2.is_currently_bad
        = decide ((isPostureBad st ap ar ast cd gd yaw).2.1.length > 0))
    ∧ ((isPostureBad st ap ar ast cd gd yaw).2.2.last_compensation_desc
        = if headIsFacingForward st.yaw_threshold yaw
          then (detectCompensation st.comp_cfg ar ast).2
          else st.last_compensation_desc)
    ∧ (isPostureBad st ap ar ast cd gd yaw).2.2.thresholds = st.thresholds
    ∧ (isPostureBad st ap ar ast cd gd yaw).2.2.comp_cfg = st.comp_cfg
    ∧ (isPostureBad st ap ar ast cd gd yaw).2.2.yaw_threshold = st.yaw_threshold := by
  refine ⟨rfl, rfl, rfl, rfl, rfl⟩

/-- C1 counterexample: on the spec's own example (`adjusted_roll = 8`,
`adjusted_shoulder_tilt = -6`, defaults `min_tilt = 2`,
`ratio_threshold = 0.7`) the compensation detector fires, yet the frame's
issue list is exactly `[shoulder_tilt]`: the independent checks are not
suppressed and no `body_compensation` tag is emitted. -/
theorem compensation_suppression_cex :
    (detectCompensation defaultCompensationConfig (some 8) (some (-6))).1 = true
    ∧ (isPostureBad DetectorHyst.init (some 0) (some 8) (some (-6))
        (some 50) (some 50) (some 0)).2.1 = ["shoulder_tilt"]
    ∧ "body_compensation" ∉ (isPostureBad DetectorHyst.init (some 0) (some 8) (some (-6))
        (some 50) (some 50) (some 0)).2.1 := by
  refine ⟨?_, ?_, ?_⟩ <;>
    norm_num [detectCompensation, defaultCompensationConfig, isPostureBad, DetectorHyst.init,
      checkThresholdWithHysteresis, defaultThresholds, headIsFacingForward] <;>
    decide

/-- C1 amended: a detected compensation changes nothing in the
classification: the issue list never contains `body_compensation` and
equals the issue list computed with compensation detection disabled; when
the head faces forward the detection result is only recorded as the
`_last_compensation_desc` message. -/
theorem compensation_informational_only (st : DetectorHyst)
    (ap ar ast cd gd yaw : Option ℚ) :
    ("body_compensation" ∉ (isPostureBad st ap ar ast cd gd yaw).2.1)
    ∧ ((isPostureBad st ap ar ast cd gd yaw).2.1
        = (isPostureBad
            { st with comp_cfg :=
                { st.comp_cfg with compensation_detection_enabled := false } }
            ap ar ast cd gd yaw).2.1)
    ∧ (headIsFacingForward st.yaw_threshold yaw = true →
        (isPostureBad st ap ar ast cd gd yaw).2.2.last_compensation_desc
          = (detectCompensation st.comp_cfg ar ast).2) := by
  refine ⟨?_, rfl, ?_⟩
  · rcases ap with - | p <;> rcases ar with - | r <;> rcases ast with - | t <;>
      rcases cd with - | c <;> rcases gd with - | g <;>
      simp only [isPostureBad] <;> split_ifs <;> simp
  · intro hfwd
    rw [(isPostureBad_state st ap ar ast cd gd yaw).2.1, if_pos hfwd]

/-- Witness for C1's amended statement: at the spec's example inputs the
issue list omits `body_compensation` while the description is recorded. -/
theorem compensation_informational_only_witness :
    ("body_compensation" ∉ (isPostureBad DetectorHyst.init (some 0) (some 8) (some (-6))
        (some 50) (some 50) (some 0)).2.1)
    ∧ (isPostureBad DetectorHyst.init (some 0) (some 8) (some (-6))
        (some 50) (some 50) (some 0)).2.2.last_compensation_desc
      = (detectCompensation defaultCompensationConfig (some 8) (some (-6))).2 := by
  have h := compensation_informational_only DetectorHyst.init
    (some 0) (some 8) (some (-6)) (some 50) (some 50) (some 0)
  exact ⟨h.1, h.2.2 (by decide)⟩

/-- C2 counterexample: frame 1 flags only pitch, so head-roll's own band was
never entered; on frame 2 a roll of 13° (within the strict 15° entry bound)
is nonetheless flagged because the code keys the bound off one global
`is_currently_bad` flag, while a per-metric state as claimed would evaluate
roll against `enter_bad` and not flag it. -/
theorem hysteresis_per_metric_cex :
    ((isPostureBad DetectorHyst.init (some (-20)) (some 0) (some 0)
        (some 50) (some 50) (some 0)).2.1 = ["head_pitch"])
    ∧ ((isPostureBad
          (isPostureBad DetectorHyst.init (some (-20)) (some 0) (some 0)
            (some 50) (some 50) (some 0)).2.2
          (some 0) (some 13) (some 0) (some 50) (some 50) (some 0)).2.1 = ["head_roll"])
    ∧ checkThresholdWithHysteresis false 13 defaultThresholds.head_roll false = false := by
  refine ⟨?_, ?_, ?_⟩ <;>
    norm_num [isPostureBad, DetectorHyst.init, checkThresholdWithHysteresis,
      defaultThresholds, headIsFacingForward, detectCompensation, defaultCompensationConfig]

/-- C2 amended: the hysteresis bound of every metric in a frame is chosen by
the single shared `is_currently_bad` flag (the previous classification's
overall verdict), not by a per-metric state, and the flag is re-committed to
the overall verdict of the frame. -/
theorem hysteresis_global_state (st : DetectorHyst) (p r t c g y : ℚ) :
    ((isPostureBad st (some p) (some r) (some t) (some c) (some g) (some y)).2.2.is_currently_bad
        = decide ((isPostureBad st (some p) (some r) (some t) (some c) (some g) (some y)).2.1 ≠ []))
    ∧ ("head_pitch" ∈ (isPostureBad st (some p) (some r) (some t) (some c) (some g) (some y)).2.1
        ↔ p < (if st.is_currently_bad then st.thresholds.pitch.exit_bad
               else st.thresholds.pitch.enter_bad))
    ∧ ("distance" ∈ (isPostureBad st (some p) (some r) (some t) (some c) (some g) (some y)).2.1
        ↔ |g - c| > (if st.is_currently_bad then st.thresholds.distance.exit_bad
                     else st.thresholds.distance.enter_bad))
    ∧ (|y| < st.yaw_threshold →
        (("head_roll" ∈ (isPostureBad st (some p) (some r) (some t) (some c) (some g) (some y)).2.1
            ↔ |r| > (if st.is_currently_bad then st.thresholds.head_roll.exit_bad
                     else st.thresholds.head_roll.enter_bad))
          ∧ ("shoulder_tilt" ∈ (isPostureBad st (some p) (some r) (some t) (some c) (some g) (some y)).2.1
            ↔ |t| > (if st.is_currently_bad then st.thresholds.shoulder_tilt.exit_bad
                     else st.thresholds.shoulder_tilt.enter_bad)))) := by
  have hiss := isPostureBad_issues st p r t c g y
  have hb : ∀ (v : ℚ) (tp : ThresholdPair),
      checkThresholdWithHysteresis st.is_currently_bad v tp false = true
        ↔ |v| > (if st.is_currently_bad then tp.exit_bad else tp.enter_bad) := by
    intro v tp
    unfold checkThresholdWithHysteresis
    cases st.is_currently_bad <;> simp
  have hp : ∀ (v : ℚ) (tp : ThresholdPair),
      checkThresholdWithHysteresis st.is_currently_bad v tp true = true
        ↔ v < (if st.is_currently_bad then tp.exit_bad else tp.enter_bad) := by
    intro v tp
    unfold checkThresholdWithHysteresis
    cases st.is_currently_bad <;> simp
  refine ⟨?_, ?_, ?_, ?_⟩
  · rw [(isPostureBad_state st _ _ _ _ _ _).1]
    rcases (isPostureBad st (some p) (some r) (some t) (some c) (some g) (some y)).2.1 with - | ⟨a, as⟩ <;> simp
  · rw [hiss, ← hp p st.thresholds.pitch]
    split_ifs <;> simp_all
  · rw [hiss, ← hb (g - c) st.thresholds.distance]
    split_ifs <;> simp_all
  · intro hy
    have hfwd : headIsFacingForward st.yaw_threshold (some y) = true := by
      simpa [headIsFacingForward] using hy
    constructor
    · rw [hiss, hfwd, ← hb r st.thresholds.head_roll]
      split_ifs <;> simp_all
    · rw [hiss, hfwd, ← hb t st.thresholds.shoulder_tilt]
      split_ifs <;> simp_all

/-- Witness for C2's amended statement at concrete inputs: with the global
flag clear, a 13° roll is within the strict entry bound, hence unflagged. -/
theorem hysteresis_global_state_witness :
    ¬ ("head_roll" ∈ (isPostureBad DetectorHyst.init (some 0) (some 13) (some 0)
        (some 50) (some 50) (some 0)).2.1) := by
  have h := (hysteresis_global_state DetectorHyst.init 0 13 0 50 50 0).2.2.2
    (by norm_num [DetectorHyst.init])
  rw [h.1]
  norm_num [DetectorHyst.init, defaultThresholds]

/-! ### Camera intrinsics of `calculate_head_angles` (lines 163-172) -/

/-- The camera matrix built for the PnP solve: focal length = frame width on
both diagonal entries, and the third column as written in the source
(`height / 2` in the first row, `width / 2` in the second). -/
def cameraMatrix (width height : ℚ) : Fin 3 → Fin 3 → ℚ :=
  ![![width, 0, height / 2],
    ![0, width, width / 2],
    ![0, 0, 1]]

/-- `dist_coeffs = np.zeros((4, 1))`: no lens distortion assumed. -/
def distCoeffs : Fin 4 → ℚ := fun _ => 0

/-- C6 (code bug): for a 1280x720 frame the diagonal focal entries are the
width and distortion is zero as claimed, but the principal-point entries
are `(height/2, width/2) = (360, 640)`, not the frame center
`(width/2, height/2) = (640, 360)`: the source swaps the two coordinates. -/
theorem camera_matrix_principal_point_swapped :
    cameraMatrix 1280 720 0 0 = 1280 ∧ cameraMatrix 1280 720 1 1 = 1280
    ∧ cameraMatrix 1280 720 0 2 = 360 ∧ cameraMatrix 1280 720 1 2 = 640
    ∧ ¬ ((360 : ℚ) = 1280 / 2) ∧ ¬ ((640 : ℚ) = 720 / 2)
    ∧ distCoeffs 0 = 0 ∧ distCoeffs 1 = 0 ∧ distCoeffs 2 = 0 ∧ distCoeffs 3 = 0 := by
  refine ⟨?_, ?_, ?_, ?_, by norm_num, by norm_num, rfl, rfl, rfl, rfl⟩ <;>
    norm_num [cameraMatrix]

/-! ### Result-field reporting of `check_posture` (lines 533-547) -/

/-- Python `round(x, 2)`: scale by 100 and round half to even. -/
def roundHalfEven (x : ℚ) : ℤ :=
  let f := ⌊x⌋
  let frac := x - (f : ℚ)
  if frac < 1 / 2 then f
  else if 1 / 2 < frac then f + 1
  else if f % 2 = 0 then f else f + 1

def round2 (x : ℚ) : ℚ := ((roundHalfEven (x * 100) : ℤ) : ℚ) / 100

/-- The reporting pattern `round(v, 2) if v else None` applied to each metric
field of the `check_posture` result: Python truthiness maps both `None` and
the number `0.0` to the `else` branch. -/
def reportField (v : Option ℚ) : Option ℚ :=
  match v with
  | none => none
  | some x => if x ≠ 0 then some (round2 x) else none

/-- C10 (code bug): a metric computed as exactly `0` is reported as null,
indistinguishable from an undeterminable value, while a non-zero computed
value is reported rounded to two decimals. -/
theorem zero_metric_reported_null :
    reportField (some 0) = none
    ∧ reportField none = none
    ∧ reportField (some (157 / 50)) = some (157 / 50)
    ∧ reportField (some (-5)) = some (-5) := by
  refine ⟨by norm_num [reportField], rfl, ?_, ?_⟩ <;>
    norm_num [reportField, round2, roundHalfEven]

/-! ### Calibration (`save_good_posture`, lines 406-438, and the websocket
handler `handle_save_current_posture`, lines 244-288) -/

/-- The attributes of `PostureDetector` touched by `save_good_posture`. -/
structure DetectorState where
  good_head_pitch_angle : Option ℚ
  good_head_roll : Option ℚ
  good_head_distance : Option ℚ
  good_shoulder_tilt : Option ℚ
  smoothing_filter : SmoothingFilter
  is_currently_bad : Bool
deriving Repr, DecidableEq

/-- `save_good_posture` given the metrics computed from the frame: requires
pitch and distance non-null; stores the baseline (roll/tilt defaulting to
0), resets the smoothing filter and clears the hysteresis flag.  Returns
`(success, updated detector)`. -/
def save_good_posture (st : DetectorState)
    (pitch eye_roll distance shoulder_tilt : Option ℚ) : Bool × DetectorState :=
  match pitch, distance with
  | some p, some d =>
    (true,
      { st with
        good_head_pitch_angle := some p,
        good_head_roll := some (eye_roll.getD 0),
        good_head_distance := some d,
        good_shoulder_tilt := some (shoulder_tilt.getD 0),
        smoothing_filter := st.smoothing_filter.reset,
        is_currently_bad := false })
  | _, _ => (false, st)

/-- The session state the websocket server coordinates: the detector and the
analyzer's state debouncer. -/
structure ServiceState where
  detector : DetectorState
  debouncer : DebouncerState
deriving Repr, DecidableEq

/-- `handle_save_current_posture`: calls `save_good_posture` on the detector;
no other component is touched (in particular not the analyzer's debouncer,
whose `force_state` has no caller). -/
def handle_save_current_posture (sys : ServiceState)
    (pitch eye_roll distance shoulder_tilt : Option ℚ) : Bool × ServiceState :=
  let r := save_good_posture sys.detector pitch eye_roll distance shoulder_tilt
  (r.1, { sys with detector := r.2 })

/-- C3 (code bug): a successful calibration while the debouncer is stably Bad
stores the baseline, empties the smoothing buffers and clears the hysteresis
flag, but leaves the state debouncer Bad: the debounced Bad state persists
past calibration, contrary to the claim (`force_state` is never invoked). -/
theorem calibration_leaves_debouncer_bad :
    (handle_save_current_posture
        { detector :=
            { good_head_pitch_angle := none, good_head_roll := none,
              good_head_distance := none, good_shoulder_tilt := none,
              smoothing_filter := ⟨5, [-15, -12], [3], [], [48]⟩,
              is_currently_bad := true },
          debouncer := ⟨true, 0, 4, 0⟩ }
        (some (-5)) (some 1) (some 50) none).1 = true
    ∧ (handle_save_current_posture
        { detector :=
            { good_head_pitch_angle := none, good_head_roll := none,
              good_head_distance := none, good_shoulder_tilt := none,
              smoothing_filter := ⟨5, [-15, -12], [3], [], [48]⟩,
              is_currently_bad := true },
          debouncer := ⟨true, 0, 4, 0⟩ }
        (some (-5)) (some 1) (some 50) none).2
      = { detector :=
            { good_head_pitch_angle := some (-5), good_head_roll := some 1,
              good_head_distance := some 50, good_shoulder_tilt := some 0,
              smoothing_filter := ⟨5, [], [], [], []⟩,
              is_currently_bad := false },
          debouncer := ⟨true, 0, 4, 0⟩ } := by
  constructor
  · rfl
  · rfl

end NeatBack
